/-
Verification of the novera frontend core: the authenticated API client's
401 refresh/retry interceptor (src/frontend/src/services/api.ts) and the
theme/customization engine (CustomizationContext, src/unnamed/part_002).

The TypeScript is shallowly embedded: `localStorage` becomes an association
list, the axios response-error interceptor becomes a pure function from its
inputs (storage, current pathname, response status, request, refresh
outcome) to a record of its effects (final storage, redirect, the list of
resent requests, which result the caller observes), and the theme engine's
`setProperty` calls become a trace of (variable, value) assignments.
-/

import Mathlib

namespace Novera

/-! ### Durable client-side storage (`localStorage`) -/

/-- `localStorage` as an association list from keys to values. -/
def Storage := List (String × String)

/-- `localStorage.getItem(k)`: the value stored at key `k`, if any. -/
def getItem : Storage → String → Option String
  | [], _ => none
  | p :: t, k => if p.1 = k then some p.2 else getItem t k

/-- `localStorage.removeItem(k)`: drop every entry at key `k`. -/
def removeItem : Storage → String → Storage
  | [], _ => []
  | p :: t, k => if p.1 = k then removeItem t k else p :: removeItem t k

/-- `localStorage.setItem(k, v)`: key `k` now maps to `v`. -/
def setItem (s : Storage) (k v : String) : Storage :=
  (k, v) :: removeItem s k

/-- `localStorage.clear()`. -/
def clearStorage (_ : Storage) : Storage := []

/-! ### The response-error interceptor (`ApiService` constructor, api.ts) -/

/-- `window.location.pathname.includes('/login')`: substring containment. -/
def strIncludes (s pat : String) : Bool :=
  decide (pat.data <:+: s.data)

/-- The slice of an axios request config the interceptor reads and writes:
the per-request `_retry` flag and the `Authorization` header. -/
structure Request where
  retryFlag : Bool
  auth : Option String
  deriving DecidableEq, Repr

/-- Outcome of the `axios.post(.../auth/refresh, { refresh_token })` call:
either a 2xx response carrying a new `access_token`, or any error. -/
inductive RefreshOutcome where
  | success (accessToken : String)
  | failure
  deriving DecidableEq, Repr

/-- Which value the interceptor hands back to the original caller. -/
inductive CallerResult where
  /-- `return Promise.reject(error)`: the original error, unchanged. -/
  | originalError
  /-- `return Promise.reject(refreshError)`: the refresh call's error. -/
  | refreshError
  /-- `return this.api(originalRequest)`: whatever the single resend
  yields, response or error, is what the caller observes. -/
  | resendOutcome
  deriving DecidableEq, Repr

/-- The observable effects of one run of the response-error interceptor. -/
structure HandlerResult where
  storage : Storage
  /-- `window.location.href = ...`, when it happens. -/
  redirect : Option String
  /-- whether `POST /auth/refresh` was called. -/
  refreshCalled : Bool
  /-- the requests passed back into `this.api(...)` for resending. -/
  resends : List Request
  result : CallerResult

/-- The async error handler installed by `this.api.interceptors.response.use`
in the `ApiService` constructor (api.ts lines 255-333), as a pure function.
`status` is `error.response?.status` (`none` for network errors), `pathname`
is `window.location.pathname`, and `refresh` is the behaviour of the
refresh endpoint when called. -/
def responseErrorHandler (storage : Storage) (pathname : String)
    (status : Option Nat) (req : Request) (refresh : RefreshOutcome) :
    HandlerResult :=
  if status = some 401 ∧ req.retryFlag = false then
    -- originalRequest._retry = true
    let req1 : Request := { req with retryFlag := true }
    match getItem storage "refresh_token" with
    | none =>
        { storage := clearStorage storage
          redirect := some "/login"
          refreshCalled := false
          resends := []
          result := .originalError }
    | some _ =>
        match refresh with
        | .success tok =>
            { storage := setItem storage "access_token" tok
              redirect := none
              refreshCalled := true
              resends := [{ req1 with auth := some ("Bearer " ++ tok) }]
              result := .resendOutcome }
        | .failure =>
            { storage := removeItem (removeItem storage "access_token")
                "refresh_token"
              redirect :=
                if strIncludes pathname "/login" then none else some "/login"
              refreshCalled := true
              resends := []
              result := .refreshError }
  else
    { storage := storage
      redirect := none
      refreshCalled := false
      resends := []
      result := .originalError }

/-! ### Theme engine (CustomizationContext) -/

/-- An RGB triple as produced by `hexToRgb` / consumed by
`adjustLightness`. -/
structure Rgb where
  r : ℤ
  g : ℤ
  b : ℤ
  deriving DecidableEq, Repr

/-- One character of the regex class `[a-f\d]` under the `/i` flag:
a decimal digit, `a`-`f`, or `A`-`F`. -/
def isHexDigitChar (c : Char) : Bool :=
  (48 ≤ c.toNat && c.toNat ≤ 57) ||
  (97 ≤ c.toNat && c.toNat ≤ 102) ||
  (65 ≤ c.toNat && c.toNat ≤ 70)

/-- The value `parseInt` assigns to one hex digit. -/
def hexDigitVal (c : Char) : ℤ :=
  if 48 ≤ c.toNat ∧ c.toNat ≤ 57 then (c.toNat : ℤ) - 48
  else if 97 ≤ c.toNat then (c.toNat : ℤ) - 97 + 10
  else (c.toNat : ℤ) - 65 + 10

/-- `parseInt(two hex digits, 16)`. -/
def hexPairVal (c1 c2 : Char) : ℤ :=
  16 * hexDigitVal c1 + hexDigitVal c2

/-- `hexToRgb`: match the string against
`^#?([a-f\d]{2})([a-f\d]{2})([a-f\d]{2})$` (case-insensitive) and parse the
three two-digit groups, or return `null` for any other shape. -/
def hexToRgb (hex : String) : Option Rgb :=
  let cs :=
    match hex.data with
    | '#' :: rest => rest
    | other => other
  match cs with
  | [c1, c2, c3, c4, c5, c6] =>
      if (([c1, c2, c3, c4, c5, c6].all isHexDigitChar) : Bool) then
        some ⟨hexPairVal c1 c2, hexPairVal c3 c4, hexPairVal c5 c6⟩
      else none
  | _ => none

/-- The shade table of `generateColorShades`: level name and signed
lightness factor. -/
def shades : List (String × ℚ) :=
  [("50", 95/100), ("100", 9/10), ("200", 8/10), ("300", 6/10),
   ("400", 4/10), ("500", 0), ("600", -1/10), ("700", -2/10),
   ("800", -3/10), ("900", -4/10)]

/-- JavaScript `Math.round`: round half toward positive infinity. -/
def jsRound (x : ℚ) : ℤ := ⌊x + 1/2⌋

/-- The inner `adjust` closure of `adjustLightness`, idealized to exact
rational arithmetic: lighten toward 255 when the amount is positive,
otherwise scale toward 0. The source computes in IEEE-754 binary64;
`adjustChannelFloat` below models that faithfully, and the two can differ
by one where binary64 rounding crosses a half-integer boundary (e.g.
channel 165 at factor -0.3: 115 in binary64, 116 exactly). This exact
version is adequate wherever only which variables are set, or the
[0, 255] bounds, matter. -/
def adjustChannel (amount : ℚ) (value : ℤ) : ℤ :=
  if 0 < amount then jsRound ((value : ℚ) + (255 - (value : ℚ)) * amount)
  else jsRound ((value : ℚ) * (1 + amount))

/-- `Math.max(0, Math.min(255, x))`. -/
def clamp255 (x : ℤ) : ℤ := max 0 (min 255 x)

/-- `adjustLightness` in exact rational arithmetic: adjust each channel
and clamp each independently to [0, 255]. `adjustLightnessFloat` below is
the binary64-faithful version; see the note on `adjustChannel`. -/
def adjustLightness (rgb : Rgb) (amount : ℚ) : Rgb :=
  { r := clamp255 (adjustChannel amount rgb.r)
    g := clamp255 (adjustChannel amount rgb.g)
    b := clamp255 (adjustChannel amount rgb.b) }

/-- The template string `rgb(r, g, b)` used as each shade's value. -/
def rgbString (c : Rgb) : String :=
  "rgb(" ++ toString c.r ++ ", " ++ toString c.g ++ ", " ++ toString c.b
    ++ ")"

/-- `generateColorShades(baseColor, name)`: parse the base color; when it
parses, derive the ten shades and emit one
`--color-<name>-<level>` style-variable assignment per level; when it does
not parse, emit nothing. -/
def generateColorShades (baseColor name : String) :
    List (String × String) :=
  match hexToRgb baseColor with
  | none => []
  | some rgb =>
      List.map (fun sh =>
          ("--color-" ++ name ++ "-" ++ sh.1,
            rgbString (adjustLightness rgb sh.2))) shades

/-- The `colors` object of a Customization record. -/
structure Colors where
  primary : String
  secondary : String
  accent : String
  background : String
  sidebar : String
  text_primary : String
  text_secondary : String
  button_primary : String
  button_text : String
  deriving DecidableEq, Repr

/-- The `typography` object of a Customization record. -/
structure Typography where
  font_family : Option String
  font_size_base : String
  font_size_heading : String
  deriving DecidableEq, Repr

/-- The `layout` object of a Customization record. -/
structure Layout where
  border_radius : String
  spacing_unit : String
  deriving DecidableEq, Repr

/-- The `branding` object of a Customization record. -/
structure Branding where
  app_name : Option String
  app_tagline : Option String
  deriving DecidableEq, Repr

/-- A Customization record as fetched from the backend. -/
structure Customization where
  id : String
  organization_name : String
  logo_url : Option String
  logo_dark_url : Option String
  favicon_url : Option String
  colors : Colors
  typography : Typography
  layout : Layout
  branding : Branding
  is_active : Bool
  deriving DecidableEq, Repr

/-- `DEFAULT_CUSTOMIZATION`: the fixed built-in record applied when the
customization fetch fails. -/
def DEFAULT_CUSTOMIZATION : Customization :=
  { id := "default"
    organization_name := "default"
    logo_url := none
    logo_dark_url := none
    favicon_url := none
    colors :=
      { primary := "#0ea5e9"
        secondary := "#d946ef"
        accent := "#8b5cf6"
        background := "#ffffff"
        sidebar := "#ffffff"
        text_primary := "#111827"
        text_secondary := "#6b7280"
        button_primary := "#0ea5e9"
        button_text := "#ffffff" }
    typography :=
      { font_family := none
        font_size_base := "14px"
        font_size_heading := "24px" }
    layout :=
      { border_radius := "8px"
        spacing_unit := "16px" }
    branding :=
      { app_name := none
        app_tagline := none }
    is_active := true }

/-- The observable effects of one `applyTheme` call: the ordered
`root.style.setProperty` trace plus the body font, favicon and title
updates. -/
structure ApplyResult where
  vars : List (String × String)
  bodyFontFamily : Option String
  faviconUpdated : Option String
  title : Option String
  deriving DecidableEq, Repr

/-- `applyTheme(customization)`: set the nine base color variables from the
raw strings, the typography and layout variables, then — only when
`colors.primary` parses — the `--color-primary-rgb` triple and the three
ten-step shade ramps; finally the favicon (resolved against the API base
when relative) and the document title when supplied. -/
def applyTheme (apiBase : String) (c : Customization) : ApplyResult :=
  let colors := c.colors
  let colorVars : List (String × String) :=
    [("--color-primary", colors.primary),
     ("--color-secondary", colors.secondary),
     ("--color-accent", colors.accent),
     ("--color-background", colors.background),
     ("--color-sidebar", colors.sidebar),
     ("--color-text-primary", colors.text_primary),
     ("--color-text-secondary", colors.text_secondary),
     ("--color-button-primary", colors.button_primary),
     ("--color-button-text", colors.button_text)]
  let typoVars : List (String × String) :=
    (match c.typography.font_family with
     | some ff => [("--font-family", ff)]
     | none => []) ++
    [("--font-size-base", c.typography.font_size_base),
     ("--font-size-heading", c.typography.font_size_heading)]
  let layoutVars : List (String × String) :=
    [("--border-radius", c.layout.border_radius),
     ("--spacing-unit", c.layout.spacing_unit)]
  let shadeVars : List (String × String) :=
    match hexToRgb colors.primary with
    | some rgb =>
        ("--color-primary-rgb",
          toString rgb.r ++ ", " ++ toString rgb.g ++ ", "
            ++ toString rgb.b) ::
        (generateColorShades colors.primary "primary" ++
         generateColorShades colors.secondary "secondary" ++
         generateColorShades colors.accent "accent")
    | none => []
  { vars := colorVars ++ typoVars ++ layoutVars ++ shadeVars
    bodyFontFamily := c.typography.font_family
    faviconUpdated := Option.map
      (fun u => if u.startsWith "http" then u else apiBase ++ u)
      c.favicon_url
    title := c.branding.app_name }

/-- `loadCustomization`: on a successful fetch, store and apply the fetched
record; on any fetch error, absorb it and store and apply
`DEFAULT_CUSTOMIZATION` instead. The function is total: no error escapes
to the caller. -/
def loadCustomization (apiBase : String)
    (fetchResult : Except String Customization) :
    Customization × ApplyResult :=
  match fetchResult with
  | .ok data => (data, applyTheme apiBase data)
  | .error _ => (DEFAULT_CUSTOMIZATION, applyTheme apiBase
      DEFAULT_CUSTOMIZATION)

/-- Whether an `applyTheme` trace assigns the style variable `v`. -/
def setsVar (res : ApplyResult) (v : String) : Bool :=
  List.any res.vars (fun p => p.1 = v)

/-- Every style variable `applyTheme` sets unconditionally for a record
whose three brand colors parse: the nine base color variables, the
typography sizes, the layout variables, the raw primary RGB triple, and
the thirty shade-ramp variables. (`--font-family` is set only when a font
family is supplied, so it is not in this list.) -/
def themeStyleVars : List String :=
  ["--color-primary", "--color-secondary", "--color-accent",
   "--color-background", "--color-sidebar", "--color-text-primary",
   "--color-text-secondary", "--color-button-primary",
   "--color-button-text", "--font-size-base", "--font-size-heading",
   "--border-radius", "--spacing-unit", "--color-primary-rgb"] ++
  List.map (fun sh => "--color-primary-" ++ sh.1) shades ++
  List.map (fun sh => "--color-secondary-" ++ sh.1) shades ++
  List.map (fun sh => "--color-accent-" ++ sh.1) shades

/-- Modelled from the spec (shade-derivation formula, §4.2): for a positive
factor, `round(channel + (255 − channel) × factor)`; for a negative
factor, `round(channel × (1 + factor))`; for factor 0, the channel
unchanged. Stated for comparison with the code's `adjustChannel`. -/
def specShadeChannel (channel : ℤ) (factor : ℚ) : ℤ :=
  if 0 < factor then
    jsRound ((channel : ℚ) + (255 - (channel : ℚ)) * factor)
  else if factor < 0 then jsRound ((channel : ℚ) * (1 + factor))
  else channel

/-- Round to the nearest integer, ties to the even integer - the rounding
used inside binary64 arithmetic. -/
def roundHalfEven (x : ℚ) : ℤ :=
  if x - ⌊x⌋ < 1/2 then ⌊x⌋
  else if 1/2 < x - ⌊x⌋ then ⌊x⌋ + 1
  else if Even ⌊x⌋ then ⌊x⌋ else ⌊x⌋ + 1

/-- Round a rational to the nearest IEEE-754 binary64 value: round the
53-bit significand to nearest, ties to even. The exponent is not clamped,
which is faithful for the magnitudes of this code (all values lie far
inside the normal range, so no overflow or subnormals occur). -/
def flRound (x : ℚ) : ℚ :=
  if x = 0 then 0
  else (if x < 0 then -1 else 1) *
    (roundHalfEven (|x| * (2:ℚ) ^ ((52:ℤ) - Int.log 2 |x|)) : ℚ) *
    (2:ℚ) ^ (Int.log 2 |x| - 52)

/-- The `adjust` closure as the JavaScript engine executes it: every
arithmetic operation on doubles rounds its exact result to binary64
(`flRound`), the source literals are themselves doubles (callers pass
`flRound` of the decimal value), and `Math.round` is exact on the
resulting double. -/
def adjustChannelFloat (amount : ℚ) (value : ℤ) : ℤ :=
  if 0 < amount then
    jsRound (flRound ((value : ℚ) +
      flRound (flRound (255 - (value : ℚ)) * amount)))
  else
    jsRound (flRound ((value : ℚ) * flRound (1 + amount)))

/-- `adjustLightness` as executed in binary64: adjust each channel with
`adjustChannelFloat` and clamp each independently to [0, 255]. -/
def adjustLightnessFloat (rgb : Rgb) (amount : ℚ) : Rgb :=
  { r := clamp255 (adjustChannelFloat amount rgb.r)
    g := clamp255 (adjustChannelFloat amount rgb.g)
    b := clamp255 (adjustChannelFloat amount rgb.b) }

/-- A record whose primary color is unparseable while its secondary color
parses: `DEFAULT_CUSTOMIZATION` with `colors.primary := "red"`. -/
def c7Record : Customization :=
  { DEFAULT_CUSTOMIZATION with
      colors := { DEFAULT_CUSTOMIZATION.colors with primary := "red" } }

/-! ### Storage lemmas -/

theorem getItem_setItem_self (s : Storage) (k v : String) :
    getItem (setItem s k v) k = some v := by
  simp [getItem, setItem]

theorem getItem_removeItem_self (s : Storage) (k : String) :
    getItem (removeItem s k) k = none := by
  induction s with
  | nil => rfl
  | cons p t ih =>
      by_cases h : p.1 = k
      · simpa [getItem, removeItem, h] using ih
      · simpa [getItem, removeItem, h] using ih

theorem getItem_removeItem_ne (s : Storage) (k k' : String) (h : k' ≠ k) :
    getItem (removeItem s k) k' = getItem s k' := by
  induction s with
  | nil => rfl
  | cons p t ih =>
      by_cases hp : p.1 = k
      · have hk2 : ¬ p.1 = k' := by
          rw [hp]; exact fun e => h e.symm
        simp only [removeItem, getItem, if_pos hp, if_neg hk2]
        exact ih
      · by_cases hk : p.1 = k'
        · simp only [removeItem, getItem, if_neg hp, if_pos hk]
        · simp only [removeItem, getItem, if_neg hp, if_neg hk]
          exact ih

/-! ### Claims about the interceptor -/

/-- C1: for a request whose response is 401 and that is not yet marked
retried, if a refresh token is in storage and the refresh call succeeds,
the new access token is persisted, the original request is resent exactly
once with `Authorization: Bearer <new token>` (and its retry flag set), and
the caller observes only the outcome of that single resend, never the
intermediate 401. -/
theorem refresh_success_resends_once_with_new_token
    (storage : Storage) (pathname : String) (req : Request)
    (rt tok : String)
    (hretry : req.retryFlag = false)
    (hrt : getItem storage "refresh_token" = some rt) :
    responseErrorHandler storage pathname (some 401) req (.success tok) =
      { storage := setItem storage "access_token" tok
        redirect := none
        refreshCalled := true
        resends := [{ retryFlag := true, auth := some ("Bearer " ++ tok) }]
        result := .resendOutcome } ∧
    getItem (setItem storage "access_token" tok) "access_token" = some tok := by
  refine ⟨?_, getItem_setItem_self storage "access_token" tok⟩
  simp [responseErrorHandler, hretry, hrt]

theorem refresh_success_witness :
    responseErrorHandler [("refresh_token", "r0")] "/chat" (some 401)
        { retryFlag := false, auth := some "Bearer old" }
        (.success "t1") =
      { storage := setItem [("refresh_token", "r0")] "access_token" "t1"
        redirect := none
        refreshCalled := true
        resends := [{ retryFlag := true, auth := some ("Bearer " ++ "t1") }]
        result := .resendOutcome } ∧
    getItem (setItem [("refresh_token", "r0")] "access_token" "t1")
        "access_token" = some "t1" :=
  refresh_success_resends_once_with_new_token
    [("refresh_token", "r0")] "/chat"
    { retryFlag := false, auth := some "Bearer old" } "r0" "t1"
    rfl (by decide)

/-- C2: a request already marked retried that receives another 401 is never
refreshed or resent again; the 401 error is propagated to the caller
unchanged and nothing else happens (storage and location untouched). -/
theorem second_401_not_retried
    (storage : Storage) (pathname : String) (req : Request)
    (refresh : RefreshOutcome)
    (hretry : req.retryFlag = true) :
    responseErrorHandler storage pathname (some 401) req refresh =
      { storage := storage
        redirect := none
        refreshCalled := false
        resends := []
        result := .originalError } := by
  simp [responseErrorHandler, hretry]

theorem second_401_not_retried_witness :
    responseErrorHandler [("access_token", "a0"), ("refresh_token", "r0")]
        "/chat" (some 401) { retryFlag := true, auth := none }
        (.success "t1") =
      { storage := [("access_token", "a0"), ("refresh_token", "r0")]
        redirect := none
        refreshCalled := false
        resends := []
        result := .originalError } :=
  second_401_not_retried
    [("access_token", "a0"), ("refresh_token", "r0")] "/chat"
    { retryFlag := true, auth := none } (.success "t1") rfl

/-- C3: a first 401 with no refresh token in storage clears the session,
redirects to the login entry point, never calls the refresh endpoint, and
propagates the original 401 error to the caller. -/
theorem no_refresh_token_clears_and_redirects
    (storage : Storage) (pathname : String) (req : Request)
    (refresh : RefreshOutcome)
    (hretry : req.retryFlag = false)
    (hrt : getItem storage "refresh_token" = none) :
    responseErrorHandler storage pathname (some 401) req refresh =
      { storage := []
        redirect := some "/login"
        refreshCalled := false
        resends := []
        result := .originalError } := by
  simp [responseErrorHandler, hretry, hrt, clearStorage]

theorem no_refresh_token_witness :
    responseErrorHandler [("access_token", "a0"), ("theme", "dark")]
        "/chat" (some 401) { retryFlag := false, auth := none }
        (.success "t1") =
      { storage := []
        redirect := some "/login"
        refreshCalled := false
        resends := []
        result := .originalError } :=
  no_refresh_token_clears_and_redirects
    [("access_token", "a0"), ("theme", "dark")] "/chat"
    { retryFlag := false, auth := none } (.success "t1") rfl (by decide)

/-- C4: when the refresh call fails, both session entries are removed from
storage, the client is redirected to the login entry point unless the
current location already contains it, and the refresh error (not the
original 401) is propagated to the caller, with no resend. -/
theorem refresh_failure_clears_session_and_redirects
    (storage : Storage) (pathname : String) (req : Request) (rt : String)
    (hretry : req.retryFlag = false)
    (hrt : getItem storage "refresh_token" = some rt) :
    responseErrorHandler storage pathname (some 401) req .failure =
      { storage := removeItem (removeItem storage "access_token")
          "refresh_token"
        redirect :=
          if strIncludes pathname "/login" then none else some "/login"
        refreshCalled := true
        resends := []
        result := .refreshError } ∧
    getItem (removeItem (removeItem storage "access_token") "refresh_token")
        "access_token" = none ∧
    getItem (removeItem (removeItem storage "access_token") "refresh_token")
        "refresh_token" = none := by
  refine ⟨?_, ?_, getItem_removeItem_self _ "refresh_token"⟩
  · simp [responseErrorHandler, hretry, hrt]
  · rw [getItem_removeItem_ne _ _ _ (by decide)]
    exact getItem_removeItem_self _ "access_token"

theorem refresh_failure_witness :
    responseErrorHandler [("access_token", "a0"), ("refresh_token", "r0")]
        "/chat" (some 401) { retryFlag := false, auth := none } .failure =
      { storage := removeItem
          (removeItem [("access_token", "a0"), ("refresh_token", "r0")]
            "access_token") "refresh_token"
        redirect :=
          if strIncludes "/chat" "/login" then none else some "/login"
        refreshCalled := true
        resends := []
        result := .refreshError } ∧
    getItem (removeItem
      (removeItem [("access_token", "a0"), ("refresh_token", "r0")]
        "access_token") "refresh_token") "access_token" = none ∧
    getItem (removeItem
      (removeItem [("access_token", "a0"), ("refresh_token", "r0")]
        "access_token") "refresh_token") "refresh_token" = none :=
  refresh_failure_clears_session_and_redirects
    [("access_token", "a0"), ("refresh_token", "r0")] "/chat"
    { retryFlag := false, auth := none } "r0" rfl (by decide)

/-- C9: any response status other than 401 (including 422 and network
errors, where no status is present) is passed through unchanged: no
refresh, no resend, no storage mutation, no redirect; the caller gets the
original error. -/
theorem non_401_passthrough
    (storage : Storage) (pathname : String) (status : Option Nat)
    (req : Request) (refresh : RefreshOutcome)
    (hstatus : status ≠ some 401) :
    responseErrorHandler storage pathname status req refresh =
      { storage := storage
        redirect := none
        refreshCalled := false
        resends := []
        result := .originalError } := by
  simp [responseErrorHandler, hstatus]

theorem non_401_passthrough_witness :
    responseErrorHandler [("access_token", "a0")] "/chat" (some 422)
        { retryFlag := false, auth := none } (.success "t1") =
      { storage := [("access_token", "a0")]
        redirect := none
        refreshCalled := false
        resends := []
        result := .originalError } :=
  non_401_passthrough [("access_token", "a0")] "/chat" (some 422)
    { retryFlag := false, auth := none } (.success "t1") (by decide)

/-- C10 (frame effect): the two unrecoverable-401 paths mutate storage
differently. With no refresh token, `localStorage.clear()` empties every
key, not only the session entries; on refresh failure, exactly
`access_token` and `refresh_token` are removed and every other key is left
unchanged. -/
theorem unrecoverable_401_storage_frame
    (storage : Storage) (pathname : String) (req : Request)
    (rt k : String)
    (hretry : req.retryFlag = false) :
    (getItem storage "refresh_token" = none →
      (responseErrorHandler storage pathname (some 401) req .failure).storage
        = [] ∧
      getItem (responseErrorHandler storage pathname (some 401) req
        .failure).storage k = none) ∧
    (getItem storage "refresh_token" = some rt →
      getItem (responseErrorHandler storage pathname (some 401) req
        .failure).storage "access_token" = none ∧
      getItem (responseErrorHandler storage pathname (some 401) req
        .failure).storage "refresh_token" = none ∧
      (k ≠ "access_token" → k ≠ "refresh_token" →
        getItem (responseErrorHandler storage pathname (some 401) req
          .failure).storage k = getItem storage k)) := by
  constructor
  · intro hrt
    refine ⟨?_, ?_⟩ <;>
      simp [responseErrorHandler, hretry, hrt, clearStorage, getItem]
  · intro hrt
    have hs : (responseErrorHandler storage pathname (some 401) req
        .failure).storage =
        removeItem (removeItem storage "access_token") "refresh_token" := by
      simp [responseErrorHandler, hretry, hrt]
    rw [hs]
    refine ⟨?_, getItem_removeItem_self _ "refresh_token",
      fun hka hkr => ?_⟩
    · rw [getItem_removeItem_ne _ _ _ (by decide)]
      exact getItem_removeItem_self _ "access_token"
    · rw [getItem_removeItem_ne _ _ _ hkr, getItem_removeItem_ne _ _ _ hka]

theorem unrecoverable_401_storage_frame_witness :
    (getItem [("access_token", "a0"), ("theme", "dark")] "refresh_token"
        = none →
      (responseErrorHandler [("access_token", "a0"), ("theme", "dark")]
        "/chat" (some 401) { retryFlag := false, auth := none }
        .failure).storage = [] ∧
      getItem (responseErrorHandler
        [("access_token", "a0"), ("theme", "dark")] "/chat" (some 401)
        { retryFlag := false, auth := none } .failure).storage "theme"
        = none) ∧
    (getItem [("access_token", "a0"), ("theme", "dark")] "refresh_token"
        = some "r0" →
      getItem (responseErrorHandler
        [("access_token", "a0"), ("theme", "dark")] "/chat" (some 401)
        { retryFlag := false, auth := none } .failure).storage
        "access_token" = none ∧
      getItem (responseErrorHandler
        [("access_token", "a0"), ("theme", "dark")] "/chat" (some 401)
        { retryFlag := false, auth := none } .failure).storage
        "refresh_token" = none ∧
      ("theme" ≠ "access_token" → "theme" ≠ "refresh_token" →
        getItem (responseErrorHandler
          [("access_token", "a0"), ("theme", "dark")] "/chat" (some 401)
          { retryFlag := false, auth := none } .failure).storage "theme"
          = getItem [("access_token", "a0"), ("theme", "dark")] "theme")) :=
  unrecoverable_401_storage_frame
    [("access_token", "a0"), ("theme", "dark")] "/chat"
    { retryFlag := false, auth := none } "r0" "theme" rfl

/-! ### Shade arithmetic lemmas -/

theorem clamp255_eq_self {x : ℤ} (h0 : 0 ≤ x) (h1 : x ≤ 255) :
    clamp255 x = x := by
  rw [clamp255, min_eq_right h1, max_eq_right h0]

theorem clamp255_bounds (x : ℤ) : 0 ≤ clamp255 x ∧ clamp255 x ≤ 255 := by
  rw [clamp255]
  exact ⟨le_max_left 0 _, max_le (by norm_num) (min_le_left 255 x)⟩

theorem jsRound_nonneg {x : ℚ} (h : 0 ≤ x) : 0 ≤ jsRound x :=
  Int.le_floor.mpr (by push_cast; linarith)

theorem jsRound_le_255 {x : ℚ} (h : x ≤ 255) : jsRound x ≤ 255 := by
  have h2 : jsRound x < 256 := Int.floor_lt.mpr (by push_cast; linarith)
  omega

theorem jsRound_intCast (v : ℤ) : jsRound (v : ℚ) = v := by
  rw [jsRound, Int.floor_eq_iff]
  constructor <;> [skip; push_cast] <;> linarith

/-- The exact-rational idealization `adjustChannel`, clamped, coincides
with the exact spec formula for any factor in [-1, 1] and any channel in
[0, 255] (the clamp never fires there). The binary64 code itself is
related to the formula by `adjustChannelFloat_near_spec` below. -/
theorem adjustChannel_eq_spec (f : ℚ) (v : ℤ)
    (hv0 : 0 ≤ v) (hv1 : v ≤ 255) (hf0 : -1 ≤ f) (hf1 : f ≤ 1) :
    clamp255 (adjustChannel f v) = specShadeChannel v f := by
  have hv0q : (0 : ℚ) ≤ (v : ℚ) := by exact_mod_cast hv0
  have hv1q : (v : ℚ) ≤ 255 := by exact_mod_cast hv1
  rcases lt_trichotomy 0 f with hf | hf | hf
  · rw [adjustChannel, if_pos hf, specShadeChannel, if_pos hf]
    refine clamp255_eq_self (jsRound_nonneg ?_) (jsRound_le_255 ?_)
    · nlinarith
    · nlinarith
  · rw [adjustChannel, ← hf, if_neg (lt_irrefl 0), specShadeChannel,
      if_neg (lt_irrefl 0), if_neg (lt_irrefl 0)]
    have hx : ((v : ℚ) * (1 + 0)) = (v : ℚ) := by ring
    rw [hx, jsRound_intCast]
    exact clamp255_eq_self hv0 hv1
  · rw [adjustChannel, if_neg (not_lt.mpr hf.le), specShadeChannel,
      if_neg (not_lt.mpr hf.le), if_pos hf]
    refine clamp255_eq_self (jsRound_nonneg ?_) (jsRound_le_255 ?_)
    · nlinarith
    · nlinarith

theorem hexDigitVal_bounds (c : Char) (h : isHexDigitChar c = true) :
    0 ≤ hexDigitVal c ∧ hexDigitVal c ≤ 15 := by
  have h2 : ((48 ≤ c.toNat ∧ c.toNat ≤ 57) ∨
      (97 ≤ c.toNat ∧ c.toNat ≤ 102)) ∨ (65 ≤ c.toNat ∧ c.toNat ≤ 70) := by
    simpa [isHexDigitChar, Bool.or_eq_true, Bool.and_eq_true,
      decide_eq_true_iff] using h
  rw [hexDigitVal]
  split
  · omega
  · split <;> omega

theorem hexPairVal_bounds (c1 c2 : Char) (h1 : isHexDigitChar c1 = true)
    (h2 : isHexDigitChar c2 = true) :
    0 ≤ hexPairVal c1 c2 ∧ hexPairVal c1 c2 ≤ 255 := by
  have b1 := hexDigitVal_bounds c1 h1
  have b2 := hexDigitVal_bounds c2 h2
  rw [hexPairVal]; omega

/-- Every channel produced by a successful `hexToRgb` parse is in
[0, 255]. -/
theorem hexToRgb_channel_bounds (s : String) (rgb : Rgb)
    (h : hexToRgb s = some rgb) :
    (0 ≤ rgb.r ∧ rgb.r ≤ 255) ∧ (0 ≤ rgb.g ∧ rgb.g ≤ 255) ∧
      (0 ≤ rgb.b ∧ rgb.b ≤ 255) := by
  simp only [hexToRgb] at h
  split at h
  · rename_i c1 c2 c3 c4 c5 c6 _
    split at h
    · rename_i hall
      simp only [List.all_cons, List.all_nil, Bool.and_eq_true,
        Bool.and_true] at hall
      obtain ⟨a1, a2, a3, a4, a5, a6⟩ := hall
      obtain rfl : Rgb.mk (hexPairVal c1 c2) (hexPairVal c3 c4)
          (hexPairVal c5 c6) = rgb := by
        injection h
      exact ⟨hexPairVal_bounds c1 c2 a1 a2, hexPairVal_bounds c3 c4 a3 a4,
        hexPairVal_bounds c5 c6 a5 a6⟩
    · exact absurd h (by simp)
  · exact absurd h (by simp)

/-- Every factor in the shade table lies in [-1, 1]. -/
theorem shades_factor_bounds (name : String) (f : ℚ)
    (hmem : (name, f) ∈ shades) : -1 ≤ f ∧ f ≤ 1 := by
  simp only [shades, List.mem_cons, List.not_mem_nil, or_false,
    Prod.mk.injEq] at hmem
  rcases hmem with ⟨_, rfl⟩ | ⟨_, rfl⟩ | ⟨_, rfl⟩ | ⟨_, rfl⟩ | ⟨_, rfl⟩ |
    ⟨_, rfl⟩ | ⟨_, rfl⟩ | ⟨_, rfl⟩ | ⟨_, rfl⟩ | ⟨_, rfl⟩ <;>
    constructor <;> norm_num

/-! ### Binary64 lemmas -/

theorem roundHalfEven_near (x : ℚ) : |(roundHalfEven x : ℚ) - x| ≤ 1/2 := by
  have h0 : (⌊x⌋ : ℚ) ≤ x := Int.floor_le x
  have h1 : x < ⌊x⌋ + 1 := Int.lt_floor_add_one x
  rw [roundHalfEven]
  split_ifs with ha hb hc <;> rw [abs_le] <;> constructor <;> push_cast <;>
    linarith

theorem roundHalfEven_intCast (n : ℤ) : roundHalfEven (n : ℚ) = n := by
  rw [roundHalfEven, Int.floor_intCast]
  norm_num

theorem log2_eq_of_bounds (x : ℚ) (e : ℤ) (h1 : 0 < x)
    (h2 : (2:ℚ) ^ e ≤ x) (h3 : x < (2:ℚ) ^ (e + 1)) : Int.log 2 x = e := by
  have hb : (1:ℕ) < 2 := one_lt_two
  have ha : e ≤ Int.log 2 x := by
    rw [← Int.zpow_le_iff_le_log hb h1]
    push_cast
    exact h2
  have hc : Int.log 2 x < e + 1 := by
    rw [← Int.lt_zpow_iff_log_lt hb h1]
    push_cast
    exact h3
  omega

theorem flRound_zero : flRound 0 = 0 := by simp [flRound]

theorem flRound_of_pos (x : ℚ) (e : ℤ) (h1 : 0 < x)
    (h2 : (2:ℚ) ^ e ≤ x) (h3 : x < (2:ℚ) ^ (e + 1)) :
    flRound x =
      (roundHalfEven (x * (2:ℚ) ^ ((52:ℤ) - e)) : ℚ) * (2:ℚ) ^ (e - 52) := by
  rw [flRound, if_neg h1.ne', if_neg (not_lt.mpr h1.le), abs_of_pos h1,
    log2_eq_of_bounds x e h1 h2 h3, one_mul]

theorem flRound_neg (x : ℚ) : flRound (-x) = -flRound x := by
  rcases lt_trichotomy x 0 with h | h | h
  · have hx : ¬ x = 0 := h.ne
    have hnx : ¬ -x = 0 := by simpa using hx
    rw [flRound, flRound, if_neg hx, if_neg hnx, abs_neg,
      if_neg (by linarith : ¬ -x < 0), if_pos h]
    ring
  · subst h
    simp [flRound]
  · have hx : ¬ x = 0 := h.ne'
    have hnx : ¬ -x = 0 := by simpa using hx
    rw [flRound, flRound, if_neg hx, if_neg hnx, abs_neg,
      if_pos (by linarith : -x < 0), if_neg (not_lt.mpr h.le)]
    ring

theorem flRound_err_pos (x : ℚ) (h1 : 0 < x) :
    |flRound x - x| ≤ x / 2 ^ 53 := by
  have hb : (1:ℕ) < 2 := one_lt_two
  set e := Int.log 2 x with he
  have h2 : (2:ℚ) ^ e ≤ x := by
    have := Int.zpow_log_le_self hb h1
    push_cast at this
    exact this
  have h3 : x < (2:ℚ) ^ (e + 1) := by
    have := Int.lt_zpow_succ_log_self hb (r := x)
    push_cast at this
    exact this
  rw [flRound_of_pos x e h1 h2 h3]
  have hkey : x * (2:ℚ) ^ ((52:ℤ) - e) * (2:ℚ) ^ (e - 52) = x := by
    rw [mul_assoc, ← zpow_add₀ (two_ne_zero (α := ℚ))]
    norm_num
  have hnear := roundHalfEven_near (x * (2:ℚ) ^ ((52:ℤ) - e))
  have hpow : (0:ℚ) < (2:ℚ) ^ (e - 52) := by positivity
  calc |(roundHalfEven (x * (2:ℚ) ^ ((52:ℤ) - e)) : ℚ) * (2:ℚ) ^ (e - 52)
        - x|
      = |((roundHalfEven (x * (2:ℚ) ^ ((52:ℤ) - e)) : ℚ)
          - x * (2:ℚ) ^ ((52:ℤ) - e)) * (2:ℚ) ^ (e - 52)| := by
        rw [sub_mul, hkey]
    _ = |(roundHalfEven (x * (2:ℚ) ^ ((52:ℤ) - e)) : ℚ)
          - x * (2:ℚ) ^ ((52:ℤ) - e)| * (2:ℚ) ^ (e - 52) := by
        rw [abs_mul, abs_of_pos hpow]
    _ ≤ (1/2) * (2:ℚ) ^ (e - 52) :=
        mul_le_mul_of_nonneg_right hnear hpow.le
    _ ≤ x / 2 ^ 53 := by
        have ha : (1/2 : ℚ) * (2:ℚ) ^ (e - 52) = (2:ℚ) ^ (e - 53) := by
          have h12 : (1/2 : ℚ) = (2:ℚ) ^ (-1 : ℤ) := by norm_num
          rw [h12, ← zpow_add₀ (two_ne_zero (α := ℚ))]
          congr 1
          omega
        rw [ha, le_div_iff₀ (by positivity : (0:ℚ) < 2 ^ 53)]
        have hc : (2:ℚ) ^ (e - 53) * (2:ℚ) ^ (53:ℕ) = (2:ℚ) ^ e := by
          rw [← zpow_natCast (2:ℚ) 53, ← zpow_add₀ (two_ne_zero (α := ℚ))]
          congr 1
          omega
        rw [hc]
        exact h2

theorem flRound_err (x : ℚ) : |flRound x - x| ≤ |x| / 2 ^ 53 := by
  rcases lt_trichotomy x 0 with h | h | h
  · have := flRound_err_pos (-x) (by linarith)
    rw [flRound_neg] at this
    rw [abs_of_neg h]
    calc |flRound x - x| = |-(flRound x) - -x| := by rw [← abs_neg]; ring_nf
      _ ≤ -x / 2 ^ 53 := this
  · subst h
    simp [flRound_zero]
  · rw [abs_of_pos h]
    exact flRound_err_pos x h

theorem flRound_intCast_small (n : ℤ) (h0 : 0 ≤ n) (h255 : n ≤ 255) :
    flRound (n : ℚ) = n := by
  rcases eq_or_lt_of_le h0 with h | h
  · rw [← h]
    simpa using flRound_zero
  have h1 : (0:ℚ) < (n:ℚ) := by exact_mod_cast h
  have hb : (1:ℕ) < 2 := one_lt_two
  set e := Int.log 2 (n:ℚ) with he
  have h2 : (2:ℚ) ^ e ≤ (n:ℚ) := by
    have := Int.zpow_log_le_self hb h1
    push_cast at this
    exact this
  have h3 : (n:ℚ) < (2:ℚ) ^ (e + 1) := by
    have := Int.lt_zpow_succ_log_self hb (r := (n:ℚ))
    push_cast at this
    exact this
  have he0 : 0 ≤ e := by
    rw [he, ← Int.zpow_le_iff_le_log hb h1]
    push_cast
    simpa using (by exact_mod_cast h : (1:ℚ) ≤ (n:ℚ))
  have he7 : e ≤ 7 := by
    by_contra hc
    push_neg at hc
    have h8 : (2:ℚ) ^ (8:ℤ) ≤ (2:ℚ) ^ e := by
      apply zpow_le_zpow_right₀ (by norm_num : (1:ℚ) ≤ 2)
      omega
    have h256 : (256:ℚ) ≤ (n:ℚ) := by
      calc (256:ℚ) = (2:ℚ) ^ (8:ℤ) := by norm_num
        _ ≤ (2:ℚ) ^ e := h8
        _ ≤ (n:ℚ) := h2
    have : (256:ℤ) ≤ n := by exact_mod_cast h256
    omega
  rw [flRound_of_pos (n:ℚ) e h1 h2 h3]
  set k : ℕ := (52 - e).toNat with hk
  have hke : ((52:ℤ) - e) = (k : ℤ) := by omega
  have hm : (n:ℚ) * (2:ℚ) ^ ((52:ℤ) - e) = ((n * 2 ^ k : ℤ) : ℚ) := by
    rw [hke, zpow_natCast]
    push_cast
    ring
  rw [hm, roundHalfEven_intCast]
  push_cast
  rw [← zpow_natCast (2:ℚ) k, mul_assoc, ← zpow_add₀ (two_ne_zero (α := ℚ))]
  have hz : (k : ℤ) + (e - 52) = 0 := by omega
  rw [hz, zpow_zero, mul_one]

theorem flRound_pos_of_pos {f : ℚ} (h : 0 < f) : 0 < flRound f := by
  have herr := abs_le.mp (flRound_err f)
  rw [abs_of_pos h] at herr
  nlinarith [herr.1, herr.2]

theorem flRound_neg_of_neg {f : ℚ} (h : f < 0) : flRound f < 0 := by
  have h2 : 0 < flRound (-f) := flRound_pos_of_pos (by linarith)
  rw [flRound_neg] at h2
  linarith

theorem mul_abs_bound {x y cx cy : ℚ} (hx : |x| ≤ cx) (hy : |y| ≤ cy) :
    |x * y| ≤ cx * cy := by
  rw [abs_mul]
  exact mul_le_mul hx hy (abs_nonneg y) ((abs_nonneg x).trans hx)

/-- Lighten branch: the binary64 evaluation of
`value + (255 - value) * amount` stays within 1/4 of the exact value. -/
theorem lighten_float_near (f : ℚ) (v : ℤ) (hv0 : 0 ≤ v) (hv1 : v ≤ 255)
    (hf0 : 0 < f) (hf1 : f ≤ 1) :
    |flRound ((v:ℚ) + flRound (flRound (255 - (v:ℚ)) * flRound f))
      - ((v:ℚ) + (255 - (v:ℚ)) * f)| ≤ 1/4 := by
  have hvq0 : (0:ℚ) ≤ (v:ℚ) := by exact_mod_cast hv0
  have hvq1 : (v:ℚ) ≤ 255 := by exact_mod_cast hv1
  set w : ℚ := 255 - (v:ℚ) with hw
  have hw0 : 0 ≤ w := by rw [hw]; linarith
  have hw1 : w ≤ 255 := by rw [hw]; linarith
  set A := flRound f with hA
  set B := flRound w with hB
  set C := flRound (B * A) with hC
  have hApos : 0 < A := flRound_pos_of_pos hf0
  have eAabs : |A - f| ≤ 1/2^53 := by
    refine le_trans (flRound_err f) ?_
    rw [abs_of_pos hf0]
    rw [div_le_div_iff_of_pos_right (by positivity)]
    exact hf1
  have eA := abs_le.mp eAabs
  have hAle : A ≤ 2 := by nlinarith [eA.2]
  have hAabs : |A| ≤ 2 := by rw [abs_of_pos hApos]; exact hAle
  have eBabs : |B - w| ≤ 255/2^53 := by
    refine le_trans (flRound_err w) ?_
    rw [abs_of_nonneg hw0]
    rw [div_le_div_iff_of_pos_right (by positivity)]
    exact hw1
  have eBw : |B - w| ≤ w/2^53 := by
    have := flRound_err w
    rwa [abs_of_nonneg hw0] at this
  have eBw2 := abs_le.mp eBw
  have hB0 : 0 ≤ B := by linarith [eBw2.1]
  have hBle : B ≤ 256 := by linarith [eBw2.2]
  have hBAabs : |B * A| ≤ 512 := by
    calc |B * A| ≤ 256 * 2 :=
          mul_abs_bound (by rw [abs_of_nonneg hB0]; exact hBle) hAabs
      _ = 512 := by norm_num
  have eCabs : |C - B * A| ≤ 512/2^53 := by
    refine le_trans (flRound_err (B * A)) ?_
    rw [div_le_div_iff_of_pos_right (by positivity)]
    exact hBAabs
  have hwabs : |w| ≤ 255 := by rw [abs_of_nonneg hw0]; exact hw1
  have hCwf : |C - w * f| ≤ 1277/2^53 := by
    have hsplit : C - w * f = (C - B*A) + ((B - w)*A + w*(A - f)) := by
      ring
    calc |C - w * f|
        = |(C - B*A) + ((B - w)*A + w*(A - f))| := by rw [← hsplit]
      _ ≤ |C - B*A| + |(B - w)*A + w*(A - f)| := abs_add _ _
      _ ≤ |C - B*A| + (|(B - w)*A| + |w*(A - f)|) := by
          linarith [abs_add ((B - w)*A) (w*(A - f))]
      _ ≤ 512/2^53 + ((255/2^53) * 2 + 255 * (1/2^53)) := by
          have t2 : |(B - w)*A| ≤ (255/2^53) * 2 := mul_abs_bound eBabs hAabs
          have t3 : |w*(A - f)| ≤ 255 * (1/2^53) := mul_abs_bound hwabs eAabs
          linarith
      _ ≤ 1277/2^53 := by norm_num
  have hCabs : |C| ≤ 256 := by
    have hwf : |w * f| ≤ 255 := by
      calc |w * f| ≤ 255 * 1 :=
            mul_abs_bound hwabs (by rw [abs_of_pos hf0]; exact hf1)
        _ = 255 := by norm_num
    calc |C| = |(C - w*f) + w*f| := by ring_nf
      _ ≤ |C - w*f| + |w*f| := abs_add _ _
      _ ≤ 1277/2^53 + 255 := by linarith
      _ ≤ 256 := by norm_num
  have hvCabs : |(v:ℚ) + C| ≤ 511 := by
    calc |(v:ℚ) + C| ≤ |(v:ℚ)| + |C| := abs_add _ _
      _ ≤ 255 + 256 := by
          have : |(v:ℚ)| ≤ 255 := by rw [abs_of_nonneg hvq0]; exact hvq1
          linarith
      _ = 511 := by norm_num
  have eDabs : |flRound ((v:ℚ) + C) - ((v:ℚ) + C)| ≤ 511/2^53 := by
    refine le_trans (flRound_err _) ?_
    rw [div_le_div_iff_of_pos_right (by positivity)]
    exact hvCabs
  calc |flRound ((v:ℚ) + C) - ((v:ℚ) + w * f)|
      = |(flRound ((v:ℚ) + C) - ((v:ℚ) + C)) + (C - w * f)| := by ring_nf
    _ ≤ |flRound ((v:ℚ) + C) - ((v:ℚ) + C)| + |C - w * f| := abs_add _ _
    _ ≤ 511/2^53 + 1277/2^53 := by linarith
    _ ≤ 1/4 := by norm_num

/-- Darken branch: the binary64 evaluation of `value * (1 + amount)` stays
within 1/4 of the exact value. -/
theorem darken_float_near (f : ℚ) (v : ℤ) (hv0 : 0 ≤ v) (hv1 : v ≤ 255)
    (hf0 : -1 ≤ f) (hf1 : f ≤ 0) :
    |flRound ((v:ℚ) * flRound (1 + flRound f)) - (v:ℚ) * (1 + f)| ≤ 1/4 := by
  have hvq0 : (0:ℚ) ≤ (v:ℚ) := by exact_mod_cast hv0
  have hvq1 : (v:ℚ) ≤ 255 := by exact_mod_cast hv1
  have hvabs : |(v:ℚ)| ≤ 255 := by rw [abs_of_nonneg hvq0]; exact hvq1
  set A := flRound f with hA
  have eAabs : |A - f| ≤ 1/2^53 := by
    refine le_trans (flRound_err f) ?_
    rw [div_le_div_iff_of_pos_right (by positivity)]
    rw [abs_le]
    constructor <;> linarith
  have eA := abs_le.mp eAabs
  have h1Aabs : |1 + A| ≤ 3 := by
    rw [abs_le]
    constructor <;> nlinarith [eA.1, eA.2]
  set T := flRound (1 + A) with hT
  have eTabs : |T - (1 + A)| ≤ 3/2^53 := by
    refine le_trans (flRound_err (1 + A)) ?_
    rw [div_le_div_iff_of_pos_right (by positivity)]
    exact h1Aabs
  have hTf : |T - (1 + f)| ≤ 4/2^53 := by
    calc |T - (1 + f)| = |(T - (1 + A)) + (A - f)| := by ring_nf
      _ ≤ |T - (1 + A)| + |A - f| := abs_add _ _
      _ ≤ 3/2^53 + 1/2^53 := by linarith
      _ = 4/2^53 := by norm_num
  have hTabs : |T| ≤ 2 := by
    have h1f : |1 + f| ≤ 1 := by rw [abs_le]; constructor <;> linarith
    calc |T| = |(T - (1 + f)) + (1 + f)| := by ring_nf
      _ ≤ |T - (1 + f)| + |1 + f| := abs_add _ _
      _ ≤ 4/2^53 + 1 := by linarith
      _ ≤ 2 := by norm_num
  have hvTabs : |(v:ℚ) * T| ≤ 510 := by
    calc |(v:ℚ) * T| ≤ 255 * 2 := mul_abs_bound hvabs hTabs
      _ = 510 := by norm_num
  have ePabs : |flRound ((v:ℚ) * T) - (v:ℚ) * T| ≤ 510/2^53 := by
    refine le_trans (flRound_err _) ?_
    rw [div_le_div_iff_of_pos_right (by positivity)]
    exact hvTabs
  calc |flRound ((v:ℚ) * T) - (v:ℚ) * (1 + f)|
      = |(flRound ((v:ℚ) * T) - (v:ℚ) * T) + (v:ℚ) * (T - (1 + f))| := by
        ring_nf
    _ ≤ |flRound ((v:ℚ) * T) - (v:ℚ) * T| + |(v:ℚ) * (T - (1 + f))| :=
        abs_add _ _
    _ ≤ 510/2^53 + 255 * (4/2^53) := by
        have := mul_abs_bound hvabs hTf
        linarith
    _ ≤ 1/4 := by norm_num

theorem jsRound_near {x y : ℚ} (h : |x - y| ≤ 1/2) :
    |jsRound x - jsRound y| ≤ 1 := by
  have h2 := abs_le.mp h
  have hup : jsRound x ≤ jsRound y + 1 := by
    rw [jsRound, jsRound]
    have hmono : (⌊x + 1/2⌋ : ℤ) ≤ ⌊y + 1/2 + 1⌋ :=
      Int.floor_mono (by linarith)
    have hadd : (⌊y + 1/2 + 1⌋ : ℤ) = ⌊y + 1/2⌋ + 1 := by
      rw [show y + 1/2 + 1 = y + 1/2 + ((1:ℤ):ℚ) by push_cast; ring,
        Int.floor_add_int]
    omega
  have hdown : jsRound y - 1 ≤ jsRound x := by
    rw [jsRound, jsRound]
    have hmono : (⌊y + 1/2 - 1⌋ : ℤ) ≤ ⌊x + 1/2⌋ :=
      Int.floor_mono (by linarith)
    have hadd : (⌊y + 1/2 - 1⌋ : ℤ) = ⌊y + 1/2⌋ + (-1) := by
      rw [show y + 1/2 - 1 = y + 1/2 + ((-1:ℤ):ℚ) by push_cast; ring,
        Int.floor_add_int]
    omega
  rw [abs_le]
  omega

theorem clamp255_near {a b : ℤ} (hb0 : 0 ≤ b) (hb1 : b ≤ 255)
    (h : |a - b| ≤ 1) : |clamp255 a - b| ≤ 1 := by
  have h2 := abs_le.mp h
  have hcl : clamp255 a = if a < 0 then 0 else if 255 < a then 255 else a := by
    rw [clamp255, max_def, min_def]
    split_ifs <;> omega
  rw [hcl]
  split_ifs <;> rw [abs_le] <;> omega

/-- The exact-arithmetic spec formula stays inside [0, 255] on its own. -/
theorem specShadeChannel_bounds (v : ℤ) (f : ℚ)
    (hv0 : 0 ≤ v) (hv1 : v ≤ 255) (hf0 : -1 ≤ f) (hf1 : f ≤ 1) :
    0 ≤ specShadeChannel v f ∧ specShadeChannel v f ≤ 255 := by
  have hvq0 : (0:ℚ) ≤ (v:ℚ) := by exact_mod_cast hv0
  have hvq1 : (v:ℚ) ≤ 255 := by exact_mod_cast hv1
  rw [specShadeChannel]
  split_ifs with h1 h2
  · constructor
    · exact jsRound_nonneg (by nlinarith)
    · exact jsRound_le_255 (by nlinarith)
  · constructor
    · exact jsRound_nonneg (by nlinarith)
    · exact jsRound_le_255 (by nlinarith)
  · exact ⟨hv0, hv1⟩

/-- At factor 0 the binary64 evaluation is exact: the channel is returned
unchanged. -/
theorem adjustChannelFloat_zero (v : ℤ) (hv0 : 0 ≤ v) (hv1 : v ≤ 255) :
    adjustChannelFloat (flRound 0) v = v := by
  rw [flRound_zero, adjustChannelFloat, if_neg (lt_irrefl 0)]
  have h1 : flRound (1 + 0 : ℚ) = 1 := by
    rw [add_zero, show (1:ℚ) = ((1:ℤ):ℚ) by norm_num,
      flRound_intCast_small 1 (by norm_num) (by norm_num)]
  rw [h1, mul_one, flRound_intCast_small v hv0 hv1]
  exact jsRound_intCast v

/-- Each binary64-computed, clamped channel is within one of the exact
spec formula. -/
theorem adjustChannelFloat_near_spec (f : ℚ) (v : ℤ)
    (hv0 : 0 ≤ v) (hv1 : v ≤ 255) (hf0 : -1 ≤ f) (hf1 : f ≤ 1) :
    |clamp255 (adjustChannelFloat (flRound f) v) - specShadeChannel v f|
      ≤ 1 := by
  obtain ⟨hs0, hs1⟩ := specShadeChannel_bounds v f hv0 hv1 hf0 hf1
  rcases lt_trichotomy 0 f with hf | hf | hf
  · have hA : 0 < flRound f := flRound_pos_of_pos hf
    rw [adjustChannelFloat, if_pos hA]
    have hnear := lighten_float_near f v hv0 hv1 hf hf1
    have hspec : specShadeChannel v f =
        jsRound ((v:ℚ) + (255 - (v:ℚ)) * f) := by
      rw [specShadeChannel, if_pos hf]
    have hjs := jsRound_near (le_trans hnear (by norm_num))
    rw [← hspec] at hjs
    exact clamp255_near hs0 hs1 hjs
  · subst hf
    rw [adjustChannelFloat_zero v hv0 hv1]
    have hspec : specShadeChannel v 0 = v := by
      rw [specShadeChannel, if_neg (lt_irrefl 0), if_neg (lt_irrefl 0)]
    rw [hspec]
    have hcv : clamp255 v = v := by
      rw [clamp255, max_def, min_def]
      split_ifs <;> omega
    rw [hcv, sub_self, abs_zero]
    norm_num
  · have hA : flRound f < 0 := flRound_neg_of_neg hf
    rw [adjustChannelFloat, if_neg (by linarith : ¬ 0 < flRound f)]
    have hnear := darken_float_near f v hv0 hv1 hf0 hf.le
    have hspec : specShadeChannel v f =
        jsRound ((v:ℚ) * (1 + f)) := by
      rw [specShadeChannel, if_neg (by linarith : ¬ 0 < f), if_pos hf]
    have hjs := jsRound_near (le_trans hnear (by norm_num))
    rw [← hspec] at hjs
    exact clamp255_near hs0 hs1 hjs

/-! ### Concrete binary64 evaluations -/

theorem flRound_eval_frac (x : ℚ) (e : ℤ) (n : ℤ) (r : ℚ)
    (h1 : 0 < x) (h2 : (2:ℚ) ^ e ≤ x) (h3 : x < (2:ℚ) ^ (e + 1))
    (h4 : roundHalfEven (x * (2:ℚ) ^ ((52:ℤ) - e)) = n)
    (h5 : (n : ℚ) * (2:ℚ) ^ (e - 52) = r) :
    flRound x = r := by
  rw [flRound_of_pos x e h1 h2 h3, h4, h5]

/-- The binary64 value of the literal `0.95`. -/
theorem flRound_lit_095 :
    flRound (95/100 : ℚ) = 8556839292003942/9007199254740992 := by
  refine flRound_eval_frac _ (-1) 8556839292003942 _ (by norm_num)
    (by norm_num) (by norm_num) ?_ (by norm_num)
  rw [show (95/100 : ℚ) * (2:ℚ) ^ ((52:ℤ) - (-1)) = 42784196460019712/5
    by norm_num]
  rw [roundHalfEven]
  rw [show ⌊(42784196460019712/5 : ℚ)⌋ = 8556839292003942 by
    rw [Int.floor_eq_iff]; norm_num]
  rw [if_pos (by norm_num)]

/-- The binary64 value of the literal `0.3`. -/
theorem flRound_lit_03 :
    flRound (3/10 : ℚ) = 5404319552844595/18014398509481984 := by
  refine flRound_eval_frac _ (-2) 5404319552844595 _ (by norm_num)
    (by norm_num) (by norm_num) ?_ (by norm_num)
  rw [show (3/10 : ℚ) * (2:ℚ) ^ ((52:ℤ) - (-2)) = 27021597764222976/5
    by norm_num]
  rw [roundHalfEven]
  rw [show ⌊(27021597764222976/5 : ℚ)⌋ = 5404319552844595 by
    rw [Int.floor_eq_iff]; norm_num]
  rw [if_pos (by norm_num)]

/-- The binary64 value of the literal `-0.3`. -/
theorem flRound_lit_neg03 :
    flRound (-3/10 : ℚ) = -(5404319552844595/18014398509481984) := by
  rw [show (-3/10 : ℚ) = -(3/10) by norm_num, flRound_neg, flRound_lit_03]

/-- `1 + (-0.3)` in binary64: the tie rounds to even, giving
0.6999999999999999556, one ulp below 0.7. -/
theorem flRound_one_plus_neg03 :
    flRound (12610078956637389/18014398509481984 : ℚ) =
      6305039478318694/9007199254740992 := by
  refine flRound_eval_frac _ (-1) 6305039478318694 _ (by norm_num)
    (by norm_num) (by norm_num) ?_ (by norm_num)
  rw [show (12610078956637389/18014398509481984 : ℚ) *
      (2:ℚ) ^ ((52:ℤ) - (-1)) = 12610078956637389/2 by norm_num]
  rw [roundHalfEven]
  rw [show ⌊(12610078956637389/2 : ℚ)⌋ = 6305039478318694 by
    rw [Int.floor_eq_iff]; norm_num]
  rw [if_neg (by norm_num), if_neg (by norm_num),
    if_pos (by decide : Even (6305039478318694 : ℤ))]

/-- `165 * fl(1 - 0.3)` in binary64: 115.49999999999999289. -/
theorem flRound_165_mul :
    flRound (520165756961292255/4503599627370496 : ℚ) =
      8127589952520191/70368744177664 := by
  refine flRound_eval_frac _ 6 8127589952520191 _ (by norm_num)
    (by norm_num) (by norm_num) ?_ (by norm_num)
  rw [show (520165756961292255/4503599627370496 : ℚ) *
      (2:ℚ) ^ ((52:ℤ) - 6) = 520165756961292255/64 by norm_num]
  rw [roundHalfEven]
  rw [show ⌊(520165756961292255/64 : ℚ)⌋ = 8127589952520191 by
    rw [Int.floor_eq_iff]; norm_num]
  rw [if_pos (by norm_num)]

/-- `241 * fl(0.95)` in binary64: 228.94999999999998863. -/
theorem flRound_241_mul :
    flRound (1031099134686475011/4503599627370496 : ℚ) =
      4027730994869043/17592186044416 := by
  refine flRound_eval_frac _ 7 8055461989738086 _ (by norm_num)
    (by norm_num) (by norm_num) ?_ (by norm_num)
  rw [show (1031099134686475011/4503599627370496 : ℚ) *
      (2:ℚ) ^ ((52:ℤ) - 7) = 1031099134686475011/128 by norm_num]
  rw [roundHalfEven]
  rw [show ⌊(1031099134686475011/128 : ℚ)⌋ = 8055461989738086 by
    rw [Int.floor_eq_iff]; norm_num]
  rw [if_pos (by norm_num)]

/-- `14 + fl(241 * fl(0.95))` is exactly representable: the final addition
does not round. -/
theorem flRound_14_plus :
    flRound (4274021599490867/17592186044416 : ℚ) =
      4274021599490867/17592186044416 := by
  refine flRound_eval_frac _ 7 8548043198981734 _ (by norm_num)
    (by norm_num) (by norm_num) ?_ (by norm_num)
  rw [show (4274021599490867/17592186044416 : ℚ) *
      (2:ℚ) ^ ((52:ℤ) - 7) = ((8548043198981734 : ℤ) : ℚ) by norm_num]
  rw [roundHalfEven_intCast]

/-- The code at shade 800, green channel 165 of `#0ea5e9`: binary64 gives
`Math.round(165 * 0.6999999999999999556) = Math.round(115.49999999999999)`
= 115. -/
theorem shade800_green_float :
    adjustChannelFloat (flRound (-3/10 : ℚ)) 165 = 115 := by
  rw [adjustChannelFloat, flRound_lit_neg03, if_neg (by norm_num)]
  rw [show (1 : ℚ) + -(5404319552844595/18014398509481984) =
      12610078956637389/18014398509481984 by norm_num]
  rw [flRound_one_plus_neg03]
  rw [show ((165:ℤ):ℚ) * (6305039478318694/9007199254740992) =
      520165756961292255/4503599627370496 by norm_num]
  rw [flRound_165_mul, jsRound]
  rw [Int.floor_eq_iff]
  norm_num

/-- The code at shade 50, red channel 14 of `#0EA5E9`: binary64 gives
`Math.round(14 + 241 * fl(0.95)) = Math.round(242.94999999999999)` = 243. -/
theorem shade50_red_float :
    adjustChannelFloat (flRound (95/100 : ℚ)) 14 = 243 := by
  rw [adjustChannelFloat, flRound_lit_095, if_pos (by norm_num)]
  rw [show (255 : ℚ) - ((14:ℤ):ℚ) = ((241:ℤ):ℚ) by norm_num]
  rw [flRound_intCast_small 241 (by norm_num) (by norm_num)]
  rw [show ((241:ℤ):ℚ) * (8556839292003942/9007199254740992) =
      1031099134686475011/4503599627370496 by norm_num]
  rw [flRound_241_mul]
  rw [show ((14:ℤ):ℚ) + 4027730994869043/17592186044416 =
      4274021599490867/17592186044416 by norm_num]
  rw [flRound_14_plus, jsRound]
  rw [Int.floor_eq_iff]
  norm_num

/-- The exact spec formula at shade 800, channel 165:
round(165 x 0.7) = round(115.5) = 116. -/
theorem spec_shade800_green_exact : specShadeChannel 165 (-3/10) = 116 := by
  rw [specShadeChannel, if_neg (by norm_num), if_pos (by norm_num), jsRound]
  rw [Int.floor_eq_iff]
  norm_num

/-! ### Claims about shade values (C5) -/

/-- C5 counterexample: the claim fails on the code at two points. (1) The
claimed particular value is wrong even in exact arithmetic:
(255 - 14) x 0.95 = 228.95, so the red channel of shade 50 of `#0EA5E9`
is round(242.95) = 243, not 244, and the binary64 code computes 243 as
well. (2) The channel-equality with the exact formula fails outright: the
source computes in binary64, where `1 + (-0.3)` rounds to
0.6999999999999999556, so at shade 800 the green channel 165 of `#0ea5e9`
becomes `Math.round(115.49999999999999)` = 115 while the exact formula
gives round(115.5) = 116. -/
theorem shade_formula_float_counterexample :
    hexToRgb "#0EA5E9" = some ⟨14, 165, 233⟩ ∧
    ("50", (95/100 : ℚ)) ∈ shades ∧
    (adjustLightnessFloat ⟨14, 165, 233⟩ (flRound (95/100))).r = 243 ∧
    ((adjustLightnessFloat ⟨14, 165, 233⟩ (flRound (95/100))).r = 244 →
      False) ∧
    ("800", (-3/10 : ℚ)) ∈ shades ∧
    (adjustLightnessFloat ⟨14, 165, 233⟩ (flRound (-3/10))).g = 115 ∧
    specShadeChannel 165 (-3/10) = 116 ∧
    ((adjustLightnessFloat ⟨14, 165, 233⟩ (flRound (-3/10))).g =
      specShadeChannel 165 (-3/10) → False) := by
  have h50 : (adjustLightnessFloat ⟨14, 165, 233⟩ (flRound (95/100))).r
      = 243 := by
    show clamp255 (adjustChannelFloat (flRound (95/100)) 14) = 243
    rw [shade50_red_float]
    decide
  have h800 : (adjustLightnessFloat ⟨14, 165, 233⟩ (flRound (-3/10))).g
      = 115 := by
    show clamp255 (adjustChannelFloat (flRound (-3/10)) 165) = 115
    rw [shade800_green_float]
    decide
  refine ⟨by decide, by simp [shades], h50, ?_, by simp [shades], h800,
    spec_shade800_green_exact, ?_⟩
  · rw [h50]
    decide
  · rw [h800, spec_shade800_green_exact]
    decide

/-- C5 amended: for every base color string that parses as six hex digits
and every level of the shade table, each output channel of the derived
shade equals the spec formula evaluated in the source's IEEE-754 binary64
arithmetic; that value is always within one of the exact-arithmetic
formula (lighten `round(channel + (255 - channel) x factor)` for positive
factors, darken `round(channel x (1 + factor))` for negative ones) and
exactly equal to the unchanged channel at factor 0. In particular, for
`#0EA5E9` the shade-50 red channel 14 becomes 243 (round(242.95), not
244 as the spec's example claims), and the shade-800 green channel 165
becomes 115 where the exact formula gives 116. -/
theorem shade_float_within_one_of_spec
    (s : String) (rgb : Rgb) (name : String) (f : ℚ)
    (hparse : hexToRgb s = some rgb)
    (hmem : (name, f) ∈ shades) :
    (|(adjustLightnessFloat rgb (flRound f)).r - specShadeChannel rgb.r f|
        ≤ 1 ∧
     |(adjustLightnessFloat rgb (flRound f)).g - specShadeChannel rgb.g f|
        ≤ 1 ∧
     |(adjustLightnessFloat rgb (flRound f)).b - specShadeChannel rgb.b f|
        ≤ 1) ∧
    (f = 0 → adjustLightnessFloat rgb (flRound f) = rgb) ∧
    (adjustLightnessFloat ⟨14, 165, 233⟩ (flRound (95/100))).r = 243 ∧
    (adjustLightnessFloat ⟨14, 165, 233⟩ (flRound (-3/10))).g = 115 := by
  obtain ⟨hr, hg, hb⟩ := hexToRgb_channel_bounds s rgb hparse
  obtain ⟨hf0, hf1⟩ := shades_factor_bounds name f hmem
  refine ⟨⟨adjustChannelFloat_near_spec f rgb.r hr.1 hr.2 hf0 hf1,
      adjustChannelFloat_near_spec f rgb.g hg.1 hg.2 hf0 hf1,
      adjustChannelFloat_near_spec f rgb.b hb.1 hb.2 hf0 hf1⟩,
    ?_, ?_, ?_⟩
  · intro hf
    subst hf
    have c1 : clamp255 rgb.r = rgb.r := by
      rw [clamp255, max_def, min_def]
      split_ifs <;> omega
    have c2 : clamp255 rgb.g = rgb.g := by
      rw [clamp255, max_def, min_def]
      split_ifs <;> omega
    have c3 : clamp255 rgb.b = rgb.b := by
      rw [clamp255, max_def, min_def]
      split_ifs <;> omega
    show Rgb.mk (clamp255 (adjustChannelFloat (flRound 0) rgb.r))
        (clamp255 (adjustChannelFloat (flRound 0) rgb.g))
        (clamp255 (adjustChannelFloat (flRound 0) rgb.b)) = rgb
    rw [adjustChannelFloat_zero rgb.r hr.1 hr.2,
      adjustChannelFloat_zero rgb.g hg.1 hg.2,
      adjustChannelFloat_zero rgb.b hb.1 hb.2, c1, c2, c3]
  · show clamp255 (adjustChannelFloat (flRound (95/100)) 14) = 243
    rw [shade50_red_float]
    decide
  · show clamp255 (adjustChannelFloat (flRound (-3/10)) 165) = 115
    rw [shade800_green_float]
    decide

theorem shade_float_within_one_witness :
    (|(adjustLightnessFloat ⟨14, 165, 233⟩ (flRound (-3/10))).r -
        specShadeChannel 14 (-3/10)| ≤ 1 ∧
     |(adjustLightnessFloat ⟨14, 165, 233⟩ (flRound (-3/10))).g -
        specShadeChannel 165 (-3/10)| ≤ 1 ∧
     |(adjustLightnessFloat ⟨14, 165, 233⟩ (flRound (-3/10))).b -
        specShadeChannel 233 (-3/10)| ≤ 1) ∧
    ((-3/10 : ℚ) = 0 →
      adjustLightnessFloat ⟨14, 165, 233⟩ (flRound (-3/10)) =
        ⟨14, 165, 233⟩) ∧
    (adjustLightnessFloat ⟨14, 165, 233⟩ (flRound (95/100))).r = 243 ∧
    (adjustLightnessFloat ⟨14, 165, 233⟩ (flRound (-3/10))).g = 115 :=
  shade_float_within_one_of_spec "#0EA5E9" ⟨14, 165, 233⟩ "800" (-3/10)
    (by decide) (by simp [shades])

/-- C6: for every input triple with integer channels in [0, 255] and every
factor of the ten-level table, every output channel of `adjustLightness`
is in [0, 255], each channel being clamped independently. -/
theorem shade_channels_bounded
    (rgb : Rgb) (name : String) (f : ℚ)
    (hr : 0 ≤ rgb.r ∧ rgb.r ≤ 255) (hg : 0 ≤ rgb.g ∧ rgb.g ≤ 255)
    (hb : 0 ≤ rgb.b ∧ rgb.b ≤ 255)
    (hmem : (name, f) ∈ shades) :
    (0 ≤ (adjustLightness rgb f).r ∧ (adjustLightness rgb f).r ≤ 255) ∧
    (0 ≤ (adjustLightness rgb f).g ∧ (adjustLightness rgb f).g ≤ 255) ∧
    (0 ≤ (adjustLightness rgb f).b ∧ (adjustLightness rgb f).b ≤ 255) ∧
    (adjustLightness rgb f).r = clamp255 (adjustChannel f rgb.r) ∧
    (adjustLightness rgb f).g = clamp255 (adjustChannel f rgb.g) ∧
    (adjustLightness rgb f).b = clamp255 (adjustChannel f rgb.b) :=
  ⟨clamp255_bounds _, clamp255_bounds _, clamp255_bounds _, rfl, rfl, rfl⟩

theorem shade_channels_bounded_witness :
    (0 ≤ (adjustLightness ⟨14, 165, 233⟩ (-4/10)).r ∧
      (adjustLightness ⟨14, 165, 233⟩ (-4/10)).r ≤ 255) ∧
    (0 ≤ (adjustLightness ⟨14, 165, 233⟩ (-4/10)).g ∧
      (adjustLightness ⟨14, 165, 233⟩ (-4/10)).g ≤ 255) ∧
    (0 ≤ (adjustLightness ⟨14, 165, 233⟩ (-4/10)).b ∧
      (adjustLightness ⟨14, 165, 233⟩ (-4/10)).b ≤ 255) ∧
    (adjustLightness ⟨14, 165, 233⟩ (-4/10)).r =
      clamp255 (adjustChannel (-4/10) 14) ∧
    (adjustLightness ⟨14, 165, 233⟩ (-4/10)).g =
      clamp255 (adjustChannel (-4/10) 165) ∧
    (adjustLightness ⟨14, 165, 233⟩ (-4/10)).b =
      clamp255 (adjustChannel (-4/10) 233) :=
  shade_channels_bounded ⟨14, 165, 233⟩ "900" (-4/10)
    (by constructor <;> decide) (by constructor <;> decide)
    (by constructor <;> decide) (by simp [shades])

/-! ### Claims about applyTheme and loadCustomization -/

/-- C7 counterexample: shade-ramp derivation is not skipped "for that color
only". The whole shade block of `applyTheme` is gated on the primary color
parsing, so with primary `"red"` (unparseable) and secondary `"#d946ef"`
(parseable), the secondary ramp is not derived even though secondary
parses; only the base variables are set. -/
theorem unparseable_primary_skips_parseable_secondary_ramp :
    hexToRgb c7Record.colors.primary = none ∧
    (hexToRgb c7Record.colors.secondary).isSome = true ∧
    setsVar (applyTheme "" c7Record) "--color-secondary-500" = false ∧
    ("--color-secondary", c7Record.colors.secondary) ∈
      (applyTheme "" c7Record).vars := by
  exact ⟨by decide, by decide, by decide, by decide⟩

set_option maxHeartbeats 3200000 in
/-- C7 amended: an unparseable color never throws and its base (raw-string)
variable is always set, but the three shade ramps are all gated on the
primary color parsing: a level variable of the primary ramp is set exactly
when primary parses, and a level variable of the secondary (resp. accent)
ramp is set exactly when primary parses and that color parses. When
primary is unparseable, every ramp is skipped, even for parseable
secondary/accent colors. -/
theorem shade_ramps_gated_on_primary
    (apiBase : String) (c : Customization) (lvl : String)
    (hlvl : lvl ∈ List.map Prod.fst shades) :
    (("--color-primary", c.colors.primary) ∈ (applyTheme apiBase c).vars ∧
     ("--color-secondary", c.colors.secondary) ∈
       (applyTheme apiBase c).vars ∧
     ("--color-accent", c.colors.accent) ∈ (applyTheme apiBase c).vars) ∧
    setsVar (applyTheme apiBase c) ("--color-primary-" ++ lvl) =
      (hexToRgb c.colors.primary).isSome ∧
    setsVar (applyTheme apiBase c) ("--color-secondary-" ++ lvl) =
      ((hexToRgb c.colors.primary).isSome &&
        (hexToRgb c.colors.secondary).isSome) ∧
    setsVar (applyTheme apiBase c) ("--color-accent-" ++ lvl) =
      ((hexToRgb c.colors.primary).isSome &&
        (hexToRgb c.colors.accent).isSome) := by
  refine ⟨⟨by simp [applyTheme], by simp [applyTheme],
    by simp [applyTheme]⟩, ?_⟩
  simp only [shades, List.map_cons, List.map_nil, List.mem_cons,
    List.not_mem_nil, or_false] at hlvl
  rcases hlvl with rfl | rfl | rfl | rfl | rfl | rfl | rfl | rfl | rfl |
    rfl <;>
  · cases hff : c.typography.font_family <;>
      cases hp : hexToRgb c.colors.primary <;>
      cases hs : hexToRgb c.colors.secondary <;>
      cases ha : hexToRgb c.colors.accent <;>
      simp [applyTheme, setsVar, generateColorShades, shades, hp, hs,
        ha, hff]

theorem shade_ramps_gated_witness :
    (("--color-primary", DEFAULT_CUSTOMIZATION.colors.primary) ∈
       (applyTheme "" DEFAULT_CUSTOMIZATION).vars ∧
     ("--color-secondary", DEFAULT_CUSTOMIZATION.colors.secondary) ∈
       (applyTheme "" DEFAULT_CUSTOMIZATION).vars ∧
     ("--color-accent", DEFAULT_CUSTOMIZATION.colors.accent) ∈
       (applyTheme "" DEFAULT_CUSTOMIZATION).vars) ∧
    setsVar (applyTheme "" DEFAULT_CUSTOMIZATION)
        ("--color-primary-" ++ "500") =
      (hexToRgb DEFAULT_CUSTOMIZATION.colors.primary).isSome ∧
    setsVar (applyTheme "" DEFAULT_CUSTOMIZATION)
        ("--color-secondary-" ++ "500") =
      ((hexToRgb DEFAULT_CUSTOMIZATION.colors.primary).isSome &&
        (hexToRgb DEFAULT_CUSTOMIZATION.colors.secondary).isSome) ∧
    setsVar (applyTheme "" DEFAULT_CUSTOMIZATION)
        ("--color-accent-" ++ "500") =
      ((hexToRgb DEFAULT_CUSTOMIZATION.colors.primary).isSome &&
        (hexToRgb DEFAULT_CUSTOMIZATION.colors.accent).isSome) :=
  shade_ramps_gated_on_primary "" DEFAULT_CUSTOMIZATION "500"
    (by simp [shades])

theorem applyTheme_vars_indep_of_apiBase (apiBase : String)
    (c : Customization) :
    (applyTheme apiBase c).vars = (applyTheme "" c).vars := rfl

/-- C8: a failed customization fetch is fully absorbed: `loadCustomization`
still returns (it never propagates the error), stores the fixed
`DEFAULT_CUSTOMIZATION`, applies the theme to it, and that application
sets every one of the theme's style variables (the nine base colors, the
typography sizes, the layout values, the raw primary RGB triple, and all
thirty shade-ramp variables). -/
theorem fetch_failure_applies_default (apiBase err : String) :
    loadCustomization apiBase (Except.error err) =
      (DEFAULT_CUSTOMIZATION, applyTheme apiBase DEFAULT_CUSTOMIZATION) ∧
    List.all themeStyleVars
        (fun v => setsVar (applyTheme apiBase DEFAULT_CUSTOMIZATION) v) =
      true := by
  refine ⟨rfl, ?_⟩
  simp only [setsVar, applyTheme_vars_indep_of_apiBase]
  decide

end Novera
